import Mathlib

/-!
Verification development for the InkFlowPr studio-operations application.

The source is TypeScript (Express routes in server/routes.ts, a Drizzle
storage layer in server/storage.ts with the shared schema, and React
client components).  The definitions below are a shallow embedding of the
parts the claims concern: the sale payment computation performed by the
SaleModal component, the stock classification of the inventory page, the
relationship-resolving reads and delete operations of the storage layer,
and the dashboard aggregation.  Decimal money columns (precision 10,
scale 2) are embedded as integer cents; timestamps as local calendar
date-time records mirroring a JavaScript Date.
-/

namespace InkFlow

/-- Local date-time with millisecond precision, mirroring the fields of a
JavaScript Date in local time.  As in JavaScript, month is 0-based
(0 = January .. 11 = December) and day is 1-based. -/
structure DateTime where
  year : Int
  month : Int
  day : Int
  hour : Int
  minute : Int
  second : Int
  ms : Int
  deriving DecidableEq

/-- Gregorian leap-year test, as JavaScript Date normalisation uses. -/
def isLeapYear (y : Int) : Bool :=
  y % 4 == 0 && (y % 100 != 0 || y % 400 == 0)

/-- Number of days in month m (0-based) of year y. -/
def daysInMonth (y m : Int) : Int :=
  if m = 1 then (if isLeapYear y then 29 else 28)
  else if m = 3 ∨ m = 5 ∨ m = 8 ∨ m = 10 then 30
  else 31

/-- Chronological key of a date-time: strictly monotone in the field tuple
for valid date-times, so comparing keys embeds the comparison of the
underlying timestamps (JavaScript Date values compare by their instant). -/
def toKey (d : DateTime) : Int :=
  (((((d.year * 12 + d.month) * 32 + d.day) * 24 + d.hour) * 60 + d.minute) * 60
      + d.second) * 1000 + d.ms

/-- Timestamp comparison a is not after b, as the gte and lte SQL
comparisons in the storage layer use. -/
def dtLeB (a b : DateTime) : Bool :=
  decide (toKey a ≤ toKey b)

/-- A structurally valid local date-time: each field inside the range a
normalised JavaScript Date keeps it in. -/
def ValidDT (d : DateTime) : Prop :=
  0 ≤ d.month ∧ d.month ≤ 11 ∧ 1 ≤ d.day ∧ d.day ≤ daysInMonth d.year d.month ∧
  0 ≤ d.hour ∧ d.hour ≤ 23 ∧ 0 ≤ d.minute ∧ d.minute ≤ 59 ∧
  0 ≤ d.second ∧ d.second ≤ 59 ∧ 0 ≤ d.ms ∧ d.ms ≤ 999

instance (d : DateTime) : Decidable (ValidDT d) := by
  unfold ValidDT; infer_instance

/-- Result of setHours(0,0,0,0): midnight at the start of the same calendar
day (storage.ts getDashboardStats, lines 387-388). -/
def startOfToday (d : DateTime) : DateTime :=
  { d with hour := 0, minute := 0, second := 0, ms := 0 }

/-- Result of setDate(getDate() + 1) applied to a midnight value: the start
of the next calendar day, rolling over month and year as JavaScript date
normalisation does (storage.ts getDashboardStats, lines 389-390). -/
def nextDayStart (d : DateTime) : DateTime :=
  if d.day + 1 ≤ daysInMonth d.year d.month then
    { d with day := d.day + 1, hour := 0, minute := 0, second := 0, ms := 0 }
  else if d.month = 11 then
    ⟨d.year + 1, 0, 1, 0, 0, 0, 0⟩
  else
    ⟨d.year, d.month + 1, 1, 0, 0, 0, 0⟩

/-- Result of new Date(getFullYear(), getMonth(), 1): midnight on the first
day of the month containing d (storage.ts line 392). -/
def startOfMonth (d : DateTime) : DateTime :=
  ⟨d.year, d.month, 1, 0, 0, 0, 0⟩

/-- Result of new Date(getFullYear(), getMonth() + 1, 0): JavaScript
normalises day 0 of the next month to the last day of the current month,
at midnight, not at 23:59:59 (storage.ts line 393). -/
def endOfMonthStart (d : DateTime) : DateTime :=
  ⟨d.year, d.month, daysInMonth d.year d.month, 0, 0, 0, 0⟩

/-- Specification-side predicate: d and e lie on the same calendar day. -/
def sameCalendarDay (d e : DateTime) : Bool :=
  d.year == e.year && d.month == e.month && d.day == e.day

/-- Specification-side predicate: d and e lie in the same calendar month. -/
def sameCalendarMonth (d e : DateTime) : Bool :=
  d.year == e.year && d.month == e.month

/-- Specification-side predicate: the time-of-day part of d is exactly
midnight. -/
def isMidnight (d : DateTime) : Bool :=
  d.hour == 0 && d.minute == 0 && d.second == 0 && d.ms == 0

/-- Client row (shared schema, clients table). -/
structure Client where
  id : String
  firstName : String
  lastName : String
  email : Option String := none
  phone : Option String := none
  dateOfBirth : Option DateTime := none
  address : Option String := none
  emergencyContact : Option String := none
  medicalNotes : Option String := none
  deriving DecidableEq

/-- Artist row (shared schema, artists table). -/
structure Artist where
  id : String
  userId : Option String := none
  name : String
  email : Option String := none
  phone : Option String := none
  specialties : List String := []
  schedule : Option String := none
  hourlyRate : Option Int := none
  isActive : Bool := true
  deriving DecidableEq

/-- Appointment row (shared schema, appointments table).  clientId and
artistId are declared not null and reference clients and artists. -/
structure Appointment where
  id : String
  clientId : String
  artistId : String
  scheduledDate : DateTime
  duration : Int
  bodyPart : String
  description : Option String := none
  referenceImages : List String := []
  status : String := "scheduled"
  estimatedPrice : Option Int := none
  notes : Option String := none
  deriving DecidableEq

/-- Inventory row (shared schema, inventory table).  Stock counts are
integers that the data model keeps non-negative, embedded as Nat. -/
structure InventoryItem where
  id : String
  name : String
  brand : Option String := none
  category : String
  currentStock : Nat := 0
  minLevel : Nat := 0
  unitPrice : Int
  supplier : Option String := none
  description : Option String := none
  deriving DecidableEq

/-- Sale row (shared schema, sales table).  Money columns are decimal
(10, 2), embedded as integer cents; remainingBalance is stored, not
recomputed by the database. -/
structure Sale where
  id : String
  appointmentId : Option String := none
  clientId : String
  artistId : String
  totalAmount : Int
  deposit : Int := 0
  remainingBalance : Int := 0
  paymentStatus : String := "pending"
  paymentMethod : Option String := none
  saleDate : DateTime
  notes : Option String := none
  deriving DecidableEq

/-- The relational state the storage layer operates on. -/
structure Db where
  clients : List Client := []
  artists : List Artist := []
  appointments : List Appointment := []
  inventory : List InventoryItem := []
  sales : List Sale := []
  deriving DecidableEq

/-- Badge returned by getStockStatus on the inventory page. -/
structure StockStatus where
  label : String
  color : String
  deriving DecidableEq

/-- Function getStockStatus of the inventory page (unnamed part_004,
lines 338-345): out of stock when the count is exactly zero, low stock
when it does not exceed the minimum level, in stock otherwise. -/
def getStockStatus (currentStock minLevel : Nat) : StockStatus :=
  if currentStock = 0 then
    { label := "Out of Stock"
      color := "bg-red-100 text-red-800 dark:bg-red-900 dark:text-red-200" }
  else if currentStock ≤ minLevel then
    { label := "Low Stock"
      color := "bg-orange-100 text-orange-800 dark:bg-orange-900 dark:text-orange-200" }
  else
    { label := "In Stock"
      color := "bg-green-100 text-green-800 dark:bg-green-900 dark:text-green-200" }

/-- Fields accepted by insertSaleSchema: every column of the sales table
except id, createdAt and updatedAt.  In particular remainingBalance and
paymentStatus are accepted from the caller. -/
structure InsertSale where
  appointmentId : Option String := none
  clientId : String
  artistId : String
  totalAmount : Int
  deposit : Int := 0
  remainingBalance : Int := 0
  paymentStatus : String := "pending"
  paymentMethod : Option String := none
  saleDate : DateTime
  notes : Option String := none
  deriving DecidableEq

/-- The mutationFn of the SaleModal component (unnamed part_001, lines
979-990): before submitting, it overwrites remainingBalance with
totalAmount minus deposit (without clamping) and derives paymentStatus
from that difference. -/
def mkSalePayload (data : InsertSale) : InsertSale :=
  let total := data.totalAmount
  let deposit := data.deposit
  let remaining := total - deposit
  { data with
    remainingBalance := remaining
    paymentStatus :=
      if remaining ≤ 0 then "completed"
      else if remaining < total then "partial"
      else "pending" }

/-- The remaining-balance figure the SaleModal displays while editing
(unnamed part_001, line 1031): clamped at zero with Math.max. -/
def displayedRemainingBalance (totalAmount deposit : Int) : Int :=
  max 0 (totalAmount - deposit)

/-- Storage createSale (storage.ts lines 362-365): a bare insert of the
validated payload; the returned row carries exactly the caller-supplied
field values, with a server-generated identifier. -/
def createSale (db : Db) (newId : String) (s : InsertSale) : Db × Sale :=
  let row : Sale :=
    { id := newId
      appointmentId := s.appointmentId
      clientId := s.clientId
      artistId := s.artistId
      totalAmount := s.totalAmount
      deposit := s.deposit
      remainingBalance := s.remainingBalance
      paymentStatus := s.paymentStatus
      paymentMethod := s.paymentMethod
      saleDate := s.saleDate
      notes := s.notes }
  ({ db with sales := db.sales ++ [row] }, row)

/-- Partial update accepted by PATCH /api/sales/:id after
insertSaleSchema.partial(): any subset of the insert fields. -/
structure SaleUpdates where
  appointmentId : Option (Option String) := none
  clientId : Option String := none
  artistId : Option String := none
  totalAmount : Option Int := none
  deposit : Option Int := none
  remainingBalance : Option Int := none
  paymentStatus : Option String := none
  paymentMethod : Option (Option String) := none
  saleDate : Option DateTime := none
  notes : Option (Option String) := none
  deriving DecidableEq

/-- Field-wise application of a partial update, as the SQL UPDATE SET
clause built by storage updateSale (storage.ts lines 367-374) performs:
each supplied field replaces the stored one, absent fields are kept. -/
def applySaleUpdates (s : Sale) (u : SaleUpdates) : Sale :=
  { s with
    appointmentId := u.appointmentId.getD s.appointmentId
    clientId := u.clientId.getD s.clientId
    artistId := u.artistId.getD s.artistId
    totalAmount := u.totalAmount.getD s.totalAmount
    deposit := u.deposit.getD s.deposit
    remainingBalance := u.remainingBalance.getD s.remainingBalance
    paymentStatus := u.paymentStatus.getD s.paymentStatus
    paymentMethod := u.paymentMethod.getD s.paymentMethod
    saleDate := u.saleDate.getD s.saleDate
    notes := u.notes.getD s.notes }

/-- Storage updateSale: updates the row with the given id in place. -/
def updateSale (db : Db) (id : String) (u : SaleUpdates) : Db :=
  { db with sales := db.sales.map (fun s => if s.id == id then applySaleUpdates s u else s) }

/-- Row lookup by primary key in the clients table. -/
def findClient (db : Db) (id : String) : Option Client :=
  db.clients.find? (fun c => c.id == id)

/-- Row lookup by primary key in the artists table. -/
def findArtist (db : Db) (id : String) : Option Artist :=
  db.artists.find? (fun a => a.id == id)

/-- Row lookup by primary key in the appointments table. -/
def findAppointment (db : Db) (id : String) : Option Appointment :=
  db.appointments.find? (fun a => a.id == id)

/-- Enriched appointment as getAppointment builds it.  The TypeScript type
declares client and artist non-null, but the query is a left join whose
results pass through unchecked non-null assertions, so the runtime values
may be null; Option models the runtime shape. -/
structure AppointmentWithRelations where
  appointment : Appointment
  client : Option Client
  artist : Option Artist
  deriving DecidableEq

/-- Enriched sale as getSale builds it; the appointment reference is
optional by design, client and artist as in AppointmentWithRelations. -/
structure SaleWithRelations where
  sale : Sale
  client : Option Client
  artist : Option Artist
  appointment : Option Appointment
  deriving DecidableEq

/-- Storage getAppointment (storage.ts lines 185-200): select with left
joins on clients and artists; undefined when no appointment row matches,
otherwise the row with whatever the joins produced. -/
def getAppointment (db : Db) (id : String) : Option AppointmentWithRelations :=
  (db.appointments.find? (fun a => a.id == id)).map (fun a =>
    { appointment := a
      client := findClient db a.clientId
      artist := findArtist db a.artistId })

/-- Storage getSale (storage.ts lines 319-336): select with left joins on
clients, artists and appointments; undefined when no sale row matches. -/
def getSale (db : Db) (id : String) : Option SaleWithRelations :=
  (db.sales.find? (fun s => s.id == id)).map (fun s =>
    { sale := s
      client := findClient db s.clientId
      artist := findArtist db s.artistId
      appointment := match s.appointmentId with
        | none => none
        | some aid => findAppointment db aid })

/-- Storage getLowStockItems (storage.ts lines 274-280): the rows with
currentStock at most minLevel (ordering by name is irrelevant here). -/
def getLowStockItems (db : Db) : List InventoryItem :=
  db.inventory.filter (fun i => decide (i.currentStock ≤ i.minLevel))

/-- The four dashboard aggregates. -/
structure DashboardStats where
  todayAppointments : Nat
  monthlyRevenue : Int
  activeArtists : Nat
  lowStockItems : Nat
  deriving DecidableEq

/-- Storage getDashboardStats (storage.ts lines 380-431), with the moment
new Date() returns passed explicitly as asOf.  The today window is
gte(start of day) and lte(start of next day), both bounds inclusive; the
month window is gte(first day midnight) and lte(last day midnight). -/
def getDashboardStats (db : Db) (asOf : DateTime) : DashboardStats :=
  let today := startOfToday asOf
  let tomorrow := nextDayStart today
  let som := startOfMonth today
  let eom := endOfMonthStart today
  { todayAppointments :=
      (db.appointments.filter (fun a =>
        dtLeB today a.scheduledDate && dtLeB a.scheduledDate tomorrow)).length
    monthlyRevenue :=
      ((db.sales.filter (fun s =>
        dtLeB som s.saleDate && dtLeB s.saleDate eom)).map (fun s => s.totalAmount)).sum
    activeArtists := (db.artists.filter (fun a => a.isActive)).length
    lowStockItems :=
      (db.inventory.filter (fun i => decide (i.currentStock ≤ i.minLevel))).length }

/-- Error raised by the datastore when a delete would break a declared
foreign-key constraint (Postgres default NO ACTION for the references
declared in the shared schema). -/
inductive DbError where
  | foreignKeyViolation
  deriving DecidableEq

/-- True when some appointment or sale row references the client id
(appointments.client_id and sales.client_id are foreign keys). -/
def clientReferenced (db : Db) (id : String) : Bool :=
  db.appointments.any (fun a => a.clientId == id) || db.sales.any (fun s => s.clientId == id)

/-- True when some appointment or sale row references the artist id
(appointments.artist_id and sales.artist_id are foreign keys). -/
def artistReferenced (db : Db) (id : String) : Bool :=
  db.appointments.any (fun a => a.artistId == id) || db.sales.any (fun s => s.artistId == id)

/-- True when some sale row references the appointment id
(sales.appointment_id is a nullable foreign key). -/
def appointmentReferenced (db : Db) (id : String) : Bool :=
  db.sales.any (fun s => s.appointmentId == some id)

/-- Storage deleteClient (storage.ts lines 164-166): a bare SQL delete.
The datastore rejects it while the row is referenced, per the declared
foreign keys; otherwise the matching row, if any, is removed and deleting
an absent id deletes zero rows without error. -/
def deleteClient (db : Db) (id : String) : Except DbError Db :=
  if clientReferenced db id then .error .foreignKeyViolation
  else .ok { db with clients := db.clients.filter (fun c => !(c.id == id)) }

/-- Storage deleteArtist (storage.ts lines 126-128), same shape as
deleteClient. -/
def deleteArtist (db : Db) (id : String) : Except DbError Db :=
  if artistReferenced db id then .error .foreignKeyViolation
  else .ok { db with artists := db.artists.filter (fun a => !(a.id == id)) }

/-- Storage deleteAppointment (storage.ts lines 260-262): guarded by the
sales.appointment_id foreign key. -/
def deleteAppointment (db : Db) (id : String) : Except DbError Db :=
  if appointmentReferenced db id then .error .foreignKeyViolation
  else .ok { db with appointments := db.appointments.filter (fun a => !(a.id == id)) }

/-- Storage deleteInventoryItem (storage.ts lines 296-298): nothing
references inventory rows, so the delete always succeeds. -/
def deleteInventoryItem (db : Db) (id : String) : Except DbError Db :=
  .ok { db with inventory := db.inventory.filter (fun i => !(i.id == id)) }

/-- Storage deleteSale (storage.ts lines 376-378): nothing references
sale rows, so the delete always succeeds. -/
def deleteSale (db : Db) (id : String) : Except DbError Db :=
  .ok { db with sales := db.sales.filter (fun s => !(s.id == id)) }

/-- The DELETE route handlers (routes.ts, for example lines 193-201):
204 No Content when the storage call returns, 500 when it throws. -/
def deleteRouteStatus (r : Except DbError Db) : Nat :=
  match r with
  | .ok _ => 204
  | .error _ => 500

/-- Referential consistency of a state: every appointment and sale
references an existing client and artist, and every non-null sale
appointment reference resolves. -/
def consistentB (db : Db) : Bool :=
  db.appointments.all (fun a =>
    db.clients.any (fun c => c.id == a.clientId) &&
    db.artists.any (fun r => r.id == a.artistId)) &&
  db.sales.all (fun s =>
    db.clients.any (fun c => c.id == s.clientId) &&
    db.artists.any (fun r => r.id == s.artistId) &&
    s.appointmentId.all (fun aid => db.appointments.any (fun a => a.id == aid)))

/-- Propositional form of referential consistency. -/
def Consistent (db : Db) : Prop :=
  consistentB db = true

instance (db : Db) : Decidable (Consistent db) := by
  unfold Consistent; infer_instance

/-- Example evaluation moment: 2024-06-15 10:30 local time (month index 5
is June; June 2024 has 30 days). -/
def asOfJune15 : DateTime := ⟨2024, 5, 15, 10, 30, 0, 0⟩

/-- Example client row. -/
def clientC1 : Client := { id := "c1", firstName := "Ada", lastName := "Lee" }

/-- Example artist row. -/
def artistR1 : Artist := { id := "r1", name := "Rex" }

/-- Appointment on the same calendar day as asOfJune15. -/
def apptSameDay : Appointment :=
  { id := "a1", clientId := "c1", artistId := "r1"
    scheduledDate := ⟨2024, 5, 15, 14, 0, 0, 0⟩, duration := 60, bodyPart := "arm" }

/-- Appointment late on the prior calendar day, within 24 hours of
asOfJune15. -/
def apptPriorDay : Appointment :=
  { id := "a2", clientId := "c1", artistId := "r1"
    scheduledDate := ⟨2024, 5, 14, 23, 0, 0, 0⟩, duration := 60, bodyPart := "arm" }

/-- Appointment exactly at the following midnight. -/
def apptNextMidnight : Appointment :=
  { id := "a3", clientId := "c1", artistId := "r1"
    scheduledDate := ⟨2024, 5, 16, 0, 0, 0, 0⟩, duration := 60, bodyPart := "arm" }

/-- Appointment on the following calendar day, after midnight. -/
def apptNextDayLater : Appointment :=
  { id := "a4", clientId := "c1", artistId := "r1"
    scheduledDate := ⟨2024, 5, 16, 1, 0, 0, 0⟩, duration := 60, bodyPart := "arm" }

/-- State holding only the boundary appointment. -/
def dbNextMidnight : Db := { appointments := [apptNextMidnight] }

/-- State mixing the four appointments around the day boundary. -/
def dbJuneMix : Db :=
  { clients := [clientC1], artists := [artistR1]
    appointments := [apptSameDay, apptPriorDay, apptNextMidnight, apptNextDayLater] }

/-- Sale of 100.00 early in June 2024. -/
def saleJune5 : Sale :=
  { id := "s1", clientId := "c1", artistId := "r1", totalAmount := 10000
    deposit := 10000, remainingBalance := 0, paymentStatus := "completed"
    saleDate := ⟨2024, 5, 5, 12, 0, 0, 0⟩ }

/-- Sale of 250.50 mid June 2024. -/
def saleJune20 : Sale :=
  { id := "s2", clientId := "c1", artistId := "r1", totalAmount := 25050
    remainingBalance := 25050, saleDate := ⟨2024, 5, 20, 9, 30, 0, 0⟩ }

/-- Sale of 100.00 in the afternoon of 2024-06-30, the last day of the
month containing asOfJune15. -/
def saleLateJune30 : Sale :=
  { id := "s3", clientId := "c1", artistId := "r1", totalAmount := 10000
    saleDate := ⟨2024, 5, 30, 15, 0, 0, 0⟩ }

/-- State with the two mid-month sales. -/
def dbJuneSales : Db :=
  { clients := [clientC1], artists := [artistR1], sales := [saleJune5, saleJune20] }

/-- State with only the late last-day sale. -/
def dbLateSale : Db :=
  { clients := [clientC1], artists := [artistR1], sales := [saleLateJune30] }

/-- Empty state. -/
def emptyDb : Db := {}

/-- Form data for the scenario totalAmount 500.00, deposit 150.00. -/
def saleData500 : InsertSale :=
  { clientId := "c1", artistId := "r1", totalAmount := 50000, deposit := 15000
    saleDate := asOfJune15 }

/-- Form data for the scenario totalAmount 200.00, deposit 200.00. -/
def saleData200 : InsertSale :=
  { clientId := "c1", artistId := "r1", totalAmount := 20000, deposit := 20000
    saleDate := asOfJune15 }

/-- Form data with an overpayment: totalAmount 100.00, deposit 150.00. -/
def saleDataOver : InsertSale :=
  { clientId := "c1", artistId := "r1", totalAmount := 10000, deposit := 15000
    saleDate := asOfJune15 }

/-- Payload a caller bypassing the UI could submit to POST /api/sales:
totalAmount 100.00, deposit 0, but remainingBalance 999.00 and
paymentStatus completed; insertSaleSchema accepts it unchanged. -/
def tamperedInsert : InsertSale :=
  { clientId := "c1", artistId := "r1", totalAmount := 10000, deposit := 0
    remainingBalance := 99900, paymentStatus := "completed", saleDate := asOfJune15 }

/-- Appointment referencing the absent client id ghost. -/
def apptDangling : Appointment :=
  { id := "a9", clientId := "ghost", artistId := "r1"
    scheduledDate := asOfJune15, duration := 30, bodyPart := "leg" }

/-- State with a dangling client reference on one appointment. -/
def dbDangling : Db := { artists := [artistR1], appointments := [apptDangling] }

/-- The enriched record getAppointment produces for dbDangling: the client
field is null, mirroring the unchecked non-null assertion at runtime. -/
def recDangling : AppointmentWithRelations :=
  { appointment := apptDangling, client := none, artist := some artistR1 }

/-- Referentially consistent state in which client c1 and artist r1 are
both referenced by an appointment. -/
def dbRef : Db :=
  { clients := [clientC1], artists := [artistR1], appointments := [apptSameDay] }

end InkFlow

namespace InkFlow

/-- Bounds on month lengths, used to reason about the chronological key. -/
theorem daysInMonth_bounds (y m : Int) :
    28 ≤ daysInMonth y m ∧ daysInMonth y m ≤ 31 := by
  unfold daysInMonth
  split_ifs <;> omega

set_option maxHeartbeats 2000000 in
/-- Pointwise form of the dashboard today window: the stored comparison
pair admits exactly the timestamps on the calendar day of asOf, plus the
one at the following midnight (both bounds of the SQL window are
inclusive). -/
theorem day_window_eq (d asOf : DateTime) (hd : ValidDT d) (hA : ValidDT asOf) :
    (dtLeB (startOfToday asOf) d && dtLeB d (nextDayStart (startOfToday asOf)))
      = (sameCalendarDay d asOf || d == nextDayStart (startOfToday asOf)) := by
  obtain ⟨y, mo, da, h, mi, s, ms⟩ := d
  obtain ⟨y2, mo2, da2, h2, mi2, s2, ms2⟩ := asOf
  have hb1 := daysInMonth_bounds y mo
  have hb2 := daysInMonth_bounds y2 mo2
  unfold ValidDT at hd hA
  rw [Bool.eq_iff_iff]
  simp only [dtLeB, Bool.and_eq_true, decide_eq_true_eq, sameCalendarDay,
    Bool.or_eq_true, beq_iff_eq, startOfToday, nextDayStart, toKey] at *
  split_ifs with h1 h2 <;>
    simp only [DateTime.mk.injEq] <;>
    by_cases hy : y = y2 <;> by_cases hmo : mo = mo2 <;>
    (try subst hy) <;> (try subst hmo) <;> omega

/-- Pointwise form of the dashboard month window: the stored comparison
pair admits exactly the timestamps in the calendar month of asOf that lie
strictly before the last day, or on the last day exactly at midnight. -/
theorem month_window_eq (d asOf : DateTime) (hd : ValidDT d) (hA : ValidDT asOf) :
    (dtLeB (startOfMonth (startOfToday asOf)) d &&
        dtLeB d (endOfMonthStart (startOfToday asOf)))
      = (sameCalendarMonth d asOf &&
         (decide (d.day < daysInMonth asOf.year asOf.month) ||
          (d.day == daysInMonth asOf.year asOf.month && isMidnight d))) := by
  obtain ⟨y, mo, da, h, mi, s, ms⟩ := d
  obtain ⟨y2, mo2, da2, h2, mi2, s2, ms2⟩ := asOf
  have hb1 := daysInMonth_bounds y mo
  have hb2 := daysInMonth_bounds y2 mo2
  unfold ValidDT at hd hA
  rw [Bool.eq_iff_iff]
  simp only [dtLeB, Bool.and_eq_true, decide_eq_true_eq, sameCalendarMonth,
    isMidnight, Bool.or_eq_true, beq_iff_eq, startOfToday, startOfMonth,
    endOfMonthStart, toKey] at *
  omega

/-- C3 (amended): the dashboard todayAppointments metric counts exactly
the appointments whose scheduledDate lies on the calendar day of the
evaluation moment, plus any scheduled exactly at the following midnight:
both SQL bounds of the window are inclusive, so the window is the closed
interval from start-of-day to start-of-next-day, not a half-open one.
Appointments on the prior calendar day, or on the following day strictly
after midnight, are not counted. -/
theorem todayAppointments_closed_window (db : Db) (asOf : DateTime)
    (hA : ValidDT asOf) (hall : ∀ a ∈ db.appointments, ValidDT a.scheduledDate) :
    (getDashboardStats db asOf).todayAppointments =
      (db.appointments.filter (fun a =>
        sameCalendarDay a.scheduledDate asOf ||
        a.scheduledDate == nextDayStart (startOfToday asOf))).length := by
  simp only [getDashboardStats]
  exact congrArg List.length
    (List.filter_congr (fun a ha => day_window_eq a.scheduledDate asOf (hall a ha) hA))

/-- Witness for C3: around 2024-06-15, of four appointments (same day
14:00, prior day 23:00, next midnight 00:00, next day 01:00) the metric
counts two: the same-day one and the next-midnight one. -/
theorem todayAppointments_closed_window_w :
    ((getDashboardStats dbJuneMix asOfJune15).todayAppointments =
      (dbJuneMix.appointments.filter (fun a =>
        sameCalendarDay a.scheduledDate asOfJune15 ||
        a.scheduledDate == nextDayStart (startOfToday asOfJune15))).length) ∧
    (getDashboardStats dbJuneMix asOfJune15).todayAppointments = 2 :=
  ⟨todayAppointments_closed_window dbJuneMix asOfJune15 (by decide) (by decide),
   by decide⟩

/-- Counterexample to C3 as stated: an appointment scheduled exactly at
the following midnight, hence on the following calendar day, is counted
by the metric (the claim says it is not). -/
theorem today_count_includes_next_midnight_cex :
    (getDashboardStats dbNextMidnight asOfJune15).todayAppointments = 1 ∧
    sameCalendarDay apptNextMidnight.scheduledDate asOfJune15 = false ∧
    apptNextMidnight.scheduledDate = nextDayStart (startOfToday asOfJune15) := by
  decide

/-- C4 (amended): the dashboard monthlyRevenue metric sums totalAmount
over the sales whose saleDate lies in the calendar month of the
evaluation moment and either strictly before its last day or exactly at
midnight of the last day: the upper bound new Date(year, month + 1, 0) is
the last day at 00:00:00, not 23:59:59, so a sale later on the last day
of the month is excluded. -/
theorem monthlyRevenue_month_window (db : Db) (asOf : DateTime)
    (hA : ValidDT asOf) (hall : ∀ s ∈ db.sales, ValidDT s.saleDate) :
    (getDashboardStats db asOf).monthlyRevenue =
      ((db.sales.filter (fun s =>
          sameCalendarMonth s.saleDate asOf &&
          (decide (s.saleDate.day < daysInMonth asOf.year asOf.month) ||
           (s.saleDate.day == daysInMonth asOf.year asOf.month && isMidnight s.saleDate)))).map
        (fun s => s.totalAmount)).sum := by
  simp only [getDashboardStats]
  exact congrArg (fun l => (l.map (fun s : Sale => s.totalAmount)).sum)
    (List.filter_congr (fun s hs => month_window_eq s.saleDate asOf (hall s hs) hA))

/-- Witness for C4: two sales of 100.00 and 250.50 in the same calendar
month give monthlyRevenue 350.50 (35050 cents). -/
theorem monthlyRevenue_month_window_w :
    ((getDashboardStats dbJuneSales asOfJune15).monthlyRevenue =
      ((dbJuneSales.sales.filter (fun s =>
          sameCalendarMonth s.saleDate asOfJune15 &&
          (decide (s.saleDate.day < daysInMonth asOfJune15.year asOfJune15.month) ||
           (s.saleDate.day == daysInMonth asOfJune15.year asOfJune15.month &&
            isMidnight s.saleDate)))).map
        (fun s => s.totalAmount)).sum) ∧
    (getDashboardStats dbJuneSales asOfJune15).monthlyRevenue = 35050 :=
  ⟨monthlyRevenue_month_window dbJuneSales asOfJune15 (by decide) (by decide),
   by decide⟩

/-- Counterexample to C4 as stated: a sale at 15:00 on 2024-06-30, the
last day of the calendar month containing the evaluation moment, is not
included, so the metric is 0 instead of the sale total of 100.00. -/
theorem monthlyRevenue_excludes_late_last_day_cex :
    (getDashboardStats dbLateSale asOfJune15).monthlyRevenue = 0 ∧
    sameCalendarMonth saleLateJune30.saleDate asOfJune15 = true ∧
    saleLateJune30.totalAmount = 10000 := by
  decide

/-- Unfolding of the SaleModal payload computation: the submitted
remainingBalance is the plain difference and paymentStatus is derived
from it by the two-way conditional. -/
theorem mkSalePayload_spec (data : InsertSale) :
    (mkSalePayload data).remainingBalance = data.totalAmount - data.deposit ∧
    (mkSalePayload data).paymentStatus =
      (if data.totalAmount - data.deposit ≤ 0 then "completed"
       else if data.totalAmount - data.deposit < data.totalAmount then "partial"
       else "pending") :=
  ⟨rfl, rfl⟩

/-- C1 (amended): the server persists the caller-supplied
remainingBalance and paymentStatus verbatim, on create (a bare insert of
the parsed payload) and on update (a field-wise SET of the supplied
fields); the only recomputation is in the SaleModal mutation on the
client, which overwrites whatever the form held before submitting. -/
theorem sale_write_persists_caller_fields (db : Db) (newId : String) (s : InsertSale)
    (sale : Sale) (u : SaleUpdates) (r : Int) (p : String) :
    ((createSale db newId s).2.remainingBalance = s.remainingBalance ∧
     (createSale db newId s).2.paymentStatus = s.paymentStatus ∧
     (createSale db newId s).2.totalAmount = s.totalAmount ∧
     (createSale db newId s).2.deposit = s.deposit) ∧
    ((applySaleUpdates sale u).remainingBalance = u.remainingBalance.getD sale.remainingBalance ∧
     (applySaleUpdates sale u).paymentStatus = u.paymentStatus.getD sale.paymentStatus) ∧
    mkSalePayload { s with remainingBalance := r, paymentStatus := p } = mkSalePayload s :=
  ⟨⟨rfl, rfl, rfl, rfl⟩, ⟨rfl, rfl⟩, rfl⟩

/-- Counterexample to C1 as stated: a payload with totalAmount 100.00,
deposit 0 and remainingBalance 999.00 passes insertSaleSchema and is
stored as-is by POST /api/sales; the stored remainingBalance is not
max(0, totalAmount - deposit) and the stored paymentStatus is the
caller-supplied completed. -/
theorem sale_create_trusts_caller_balance_cex :
    (createSale emptyDb "s1" tamperedInsert).2.remainingBalance = 99900 ∧
    ¬((createSale emptyDb "s1" tamperedInsert).2.remainingBalance =
        max 0 (tamperedInsert.totalAmount - tamperedInsert.deposit)) ∧
    (createSale emptyDb "s1" tamperedInsert).2.paymentStatus = "completed" ∧
    tamperedInsert.totalAmount = 10000 ∧ tamperedInsert.deposit = 0 := by
  decide

/-- C2 (amended): when deposit exceeds totalAmount, the payload the
SaleModal submits carries the raw negative difference as
remainingBalance (the clamp with Math.max exists only in the displayed
figure) while paymentStatus is completed; overpayment is accepted. -/
theorem overpayment_not_clamped (data : InsertSale)
    (h : data.totalAmount < data.deposit) :
    (mkSalePayload data).remainingBalance = data.totalAmount - data.deposit ∧
    (mkSalePayload data).remainingBalance < 0 ∧
    (mkSalePayload data).paymentStatus = "completed" ∧
    displayedRemainingBalance data.totalAmount data.deposit = 0 := by
  obtain ⟨e1, e2⟩ := mkSalePayload_spec data
  refine ⟨e1, by omega, ?_, ?_⟩
  · rw [e2, if_pos (by omega : data.totalAmount - data.deposit ≤ 0)]
  · unfold displayedRemainingBalance
    omega

/-- Witness for C2 at totalAmount 100.00, deposit 150.00. -/
theorem overpayment_not_clamped_w :
    (mkSalePayload saleDataOver).remainingBalance =
        saleDataOver.totalAmount - saleDataOver.deposit ∧
    (mkSalePayload saleDataOver).remainingBalance < 0 ∧
    (mkSalePayload saleDataOver).paymentStatus = "completed" ∧
    displayedRemainingBalance saleDataOver.totalAmount saleDataOver.deposit = 0 :=
  overpayment_not_clamped saleDataOver (by decide)

/-- Counterexample to C2 as stated: for totalAmount 100.00 and deposit
150.00 the persisted remainingBalance is -50.00, not the claimed 0. -/
theorem overpayment_persisted_negative_cex :
    (mkSalePayload saleDataOver).remainingBalance = -5000 ∧
    ¬((mkSalePayload saleDataOver).remainingBalance = 0) ∧
    saleDataOver.totalAmount < saleDataOver.deposit ∧
    (mkSalePayload saleDataOver).paymentStatus = "completed" := by
  decide

/-- C5 (confirmed): getStockStatus labels an item Out of Stock exactly
when currentStock is zero, Low Stock exactly when it is positive and at
most minLevel, In Stock exactly in the remaining case, and every item
gets one of the three labels. -/
theorem stock_classification_partition (currentStock minLevel : Nat) :
    ((getStockStatus currentStock minLevel).label = "Out of Stock" ↔ currentStock = 0) ∧
    ((getStockStatus currentStock minLevel).label = "Low Stock" ↔
      0 < currentStock ∧ currentStock ≤ minLevel) ∧
    ((getStockStatus currentStock minLevel).label = "In Stock" ↔
      ¬(currentStock = 0) ∧ ¬(0 < currentStock ∧ currentStock ≤ minLevel)) ∧
    ((getStockStatus currentStock minLevel).label = "Out of Stock" ∨
     (getStockStatus currentStock minLevel).label = "Low Stock" ∨
     (getStockStatus currentStock minLevel).label = "In Stock") := by
  unfold getStockStatus
  split_ifs with h1 h2 <;>
    refine ⟨?_, ?_, ?_, ?_⟩ <;> simp_all <;> omega

/-- Pointwise agreement between the aggregate low-stock test and the
per-item classification: counting currentStock at most minLevel is
counting the items not labelled In Stock. -/
theorem stockBool_eq (i : InventoryItem) :
    decide (i.currentStock ≤ i.minLevel)
      = (!((getStockStatus i.currentStock i.minLevel).label == "In Stock")) := by
  unfold getStockStatus
  split_ifs with h1 h2 <;> simp_all

/-- Splitting the low-stock count into the Low Stock and Out of Stock
classes. -/
theorem lowCount_split (l : List InventoryItem) :
    (l.filter (fun i => decide (i.currentStock ≤ i.minLevel))).length =
      (l.filter (fun i => (getStockStatus i.currentStock i.minLevel).label == "Low Stock")).length +
      (l.filter (fun i => (getStockStatus i.currentStock i.minLevel).label == "Out of Stock")).length := by
  induction l with
  | nil => rfl
  | cons i t ih =>
    by_cases h1 : i.currentStock = 0
    · have p1 : (decide (i.currentStock ≤ i.minLevel)) = true := by simp [h1]
      have p2 : ((getStockStatus i.currentStock i.minLevel).label == "Low Stock") = false := by
        simp [getStockStatus, h1]
      have p3 : ((getStockStatus i.currentStock i.minLevel).label == "Out of Stock") = true := by
        simp [getStockStatus, h1]
      simp [List.filter_cons, p1, p2, p3]
      omega
    · by_cases h2 : i.currentStock ≤ i.minLevel
      · have p1 : (decide (i.currentStock ≤ i.minLevel)) = true := by simp [h2]
        have p2 : ((getStockStatus i.currentStock i.minLevel).label == "Low Stock") = true := by
          simp [getStockStatus, h1, h2]
        have p3 : ((getStockStatus i.currentStock i.minLevel).label == "Out of Stock") = false := by
          simp [getStockStatus, h1, h2]
        simp [List.filter_cons, p1, p2, p3]
        omega
      · have p1 : (decide (i.currentStock ≤ i.minLevel)) = false := by simp [h2]
        have p2 : ((getStockStatus i.currentStock i.minLevel).label == "Low Stock") = false := by
          simp [getStockStatus, h1, h2]
        have p3 : ((getStockStatus i.currentStock i.minLevel).label == "Out of Stock") = false := by
          simp [getStockStatus, h1, h2]
        simp [List.filter_cons, p1, p2, p3]
        omega

/-- C6 (confirmed): the dashboard lowStockItems metric counts the items
with currentStock at most minLevel, which is the same count the
getLowStockItems query returns, equals the number of items whose
classification is not In Stock, and splits as the Low Stock count plus
the Out of Stock count: the aggregate merges both classes into one
bucket. -/
theorem low_stock_metric_counts_low_and_out (db : Db) (asOf : DateTime) :
    (getDashboardStats db asOf).lowStockItems = (getLowStockItems db).length ∧
    (getDashboardStats db asOf).lowStockItems =
      (db.inventory.filter (fun i =>
        !((getStockStatus i.currentStock i.minLevel).label == "In Stock"))).length ∧
    (getDashboardStats db asOf).lowStockItems =
      (db.inventory.filter (fun i =>
        (getStockStatus i.currentStock i.minLevel).label == "Low Stock")).length +
      (db.inventory.filter (fun i =>
        (getStockStatus i.currentStock i.minLevel).label == "Out of Stock")).length := by
  refine ⟨rfl, ?_, ?_⟩
  · exact congrArg List.length (List.filter_congr (fun i _ => stockBool_eq i))
  · exact lowCount_split db.inventory

/-- C7 (confirmed): for a deposit between zero and the total, the
submitted remainingBalance is exactly totalAmount minus deposit, and the
submitted paymentStatus is completed exactly when that difference is
zero, partial exactly when it is strictly between zero and the total,
and pending exactly in the remaining case. -/
theorem payment_status_derivation (data : InsertSale)
    (h0 : 0 ≤ data.deposit) (h1 : data.deposit ≤ data.totalAmount) :
    (mkSalePayload data).remainingBalance = data.totalAmount - data.deposit ∧
    ((mkSalePayload data).paymentStatus = "completed" ↔
      data.totalAmount - data.deposit = 0) ∧
    ((mkSalePayload data).paymentStatus = "partial" ↔
      0 < data.totalAmount - data.deposit ∧
      data.totalAmount - data.deposit < data.totalAmount) ∧
    ((mkSalePayload data).paymentStatus = "pending" ↔
      ¬(data.totalAmount - data.deposit = 0) ∧
      ¬(0 < data.totalAmount - data.deposit ∧
        data.totalAmount - data.deposit < data.totalAmount)) := by
  obtain ⟨e1, e2⟩ := mkSalePayload_spec data
  rw [e1, e2]
  split_ifs with hA hB
  · exact ⟨rfl, iff_of_true rfl (by omega), iff_of_false (by decide) (by omega),
      iff_of_false (by decide) (fun hh => hh.1 (by omega))⟩
  · exact ⟨rfl, iff_of_false (by decide) (by omega), iff_of_true rfl (by omega),
      iff_of_false (by decide) (fun hh => hh.2 ⟨by omega, hB⟩)⟩
  · exact ⟨rfl, iff_of_false (by decide) (by omega),
      iff_of_false (by decide) (fun hh => hB hh.2),
      iff_of_true rfl ⟨by omega, fun hh => hB hh.2⟩⟩

/-- Witness for C7 at the two spec scenarios: 500.00 with deposit 150.00
gives 350.00 partial, 200.00 with deposit 200.00 gives 0.00 completed. -/
theorem payment_status_derivation_w :
    ((mkSalePayload saleData500).remainingBalance =
        saleData500.totalAmount - saleData500.deposit ∧
     ((mkSalePayload saleData500).paymentStatus = "completed" ↔
       saleData500.totalAmount - saleData500.deposit = 0) ∧
     ((mkSalePayload saleData500).paymentStatus = "partial" ↔
       0 < saleData500.totalAmount - saleData500.deposit ∧
       saleData500.totalAmount - saleData500.deposit < saleData500.totalAmount) ∧
     ((mkSalePayload saleData500).paymentStatus = "pending" ↔
       ¬(saleData500.totalAmount - saleData500.deposit = 0) ∧
       ¬(0 < saleData500.totalAmount - saleData500.deposit ∧
         saleData500.totalAmount - saleData500.deposit < saleData500.totalAmount))) ∧
    (mkSalePayload saleData500).remainingBalance = 35000 ∧
    (mkSalePayload saleData500).paymentStatus = "partial" ∧
    (mkSalePayload saleData200).remainingBalance = 0 ∧
    (mkSalePayload saleData200).paymentStatus = "completed" :=
  ⟨payment_status_derivation saleData500 (by decide) (by decide),
   by decide, by decide, by decide, by decide⟩

/-- C8 (amended): getAppointment and getSale return undefined only when
the appointment or sale id itself is absent; when the row exists they
always return an enriched record, and its client or artist field is null
exactly when the referenced identifier does not resolve: no NotFound
error is raised for a dangling reference, the left join result passes
through an unchecked non-null assertion. -/
theorem resolver_left_join_nullable (db : Db) (id : String) :
    (getAppointment db id = none ↔ ∀ a ∈ db.appointments, a.id ≠ id) ∧
    (∀ rec, getAppointment db id = some rec →
      ((rec.client = none ↔ ∀ c ∈ db.clients, c.id ≠ rec.appointment.clientId) ∧
       (rec.artist = none ↔ ∀ r ∈ db.artists, r.id ≠ rec.appointment.artistId))) ∧
    (getSale db id = none ↔ ∀ s ∈ db.sales, s.id ≠ id) ∧
    (∀ rec, getSale db id = some rec →
      ((rec.client = none ↔ ∀ c ∈ db.clients, c.id ≠ rec.sale.clientId) ∧
       (rec.artist = none ↔ ∀ r ∈ db.artists, r.id ≠ rec.sale.artistId))) := by
  refine ⟨?_, ?_, ?_, ?_⟩
  · simp [getAppointment, List.find?_eq_none]
  · intro rec hrec
    rw [getAppointment] at hrec
    obtain ⟨a, hfind, rfl⟩ := Option.map_eq_some'.mp hrec
    constructor
    · simp [findClient, List.find?_eq_none]
    · simp [findArtist, List.find?_eq_none]
  · simp [getSale, List.find?_eq_none]
  · intro rec hrec
    rw [getSale] at hrec
    obtain ⟨s, hfind, rfl⟩ := Option.map_eq_some'.mp hrec
    constructor
    · simp [findClient, List.find?_eq_none]
    · simp [findArtist, List.find?_eq_none]

/-- Witness for C8: in the state with a dangling client reference, the
resolved record exists and its client field is null. -/
theorem resolver_left_join_nullable_w :
    recDangling.client = none ∧ getAppointment dbDangling "a9" = some recDangling :=
  ⟨((resolver_left_join_nullable dbDangling "a9").2.1 recDangling (by decide)).1.mpr
      (by decide),
   by decide⟩

/-- Counterexample to C8 as stated: with an appointment whose clientId
does not resolve, getAppointment does not fail, it returns an enriched
record whose client field is null. -/
theorem resolver_returns_null_client_cex :
    getAppointment dbDangling "a9" = some recDangling ∧
    recDangling.client = none ∧
    ¬(getAppointment dbDangling "a9" = none) := by
  decide

/-- Client-id disuse follows from consistency when the id is absent from
the clients table. -/
theorem clientReferenced_eq_false_of_missing (db : Db) (id : String)
    (hc : Consistent db) (h1 : ∀ c ∈ db.clients, c.id ≠ id) :
    clientReferenced db id = false := by
  unfold Consistent consistentB at hc
  simp only [Bool.and_eq_true, List.all_eq_true, List.any_eq_true, beq_iff_eq] at hc
  obtain ⟨hApp, hSale⟩ := hc
  unfold clientReferenced
  simp only [Bool.or_eq_false_iff, List.any_eq_false, beq_iff_eq]
  constructor
  · intro a ha heq
    obtain ⟨⟨c, hcm, hcid⟩, -⟩ := hApp a ha
    exact h1 c hcm (hcid.trans heq)
  · intro s hs heq
    obtain ⟨⟨⟨c, hcm, hcid⟩, -⟩, -⟩ := hSale s hs
    exact h1 c hcm (hcid.trans heq)

/-- Artist-id disuse follows from consistency when the id is absent from
the artists table. -/
theorem artistReferenced_eq_false_of_missing (db : Db) (id : String)
    (hc : Consistent db) (h2 : ∀ r ∈ db.artists, r.id ≠ id) :
    artistReferenced db id = false := by
  unfold Consistent consistentB at hc
  simp only [Bool.and_eq_true, List.all_eq_true, List.any_eq_true, beq_iff_eq] at hc
  obtain ⟨hApp, hSale⟩ := hc
  unfold artistReferenced
  simp only [Bool.or_eq_false_iff, List.any_eq_false, beq_iff_eq]
  constructor
  · intro a ha heq
    obtain ⟨-, r, hrm, hrid⟩ := hApp a ha
    exact h2 r hrm (hrid.trans heq)
  · intro s hs heq
    obtain ⟨⟨-, r, hrm, hrid⟩, -⟩ := hSale s hs
    exact h2 r hrm (hrid.trans heq)

/-- Appointment-id disuse follows from consistency when the id is absent
from the appointments table. -/
theorem appointmentReferenced_eq_false_of_missing (db : Db) (id : String)
    (hc : Consistent db) (h3 : ∀ a ∈ db.appointments, a.id ≠ id) :
    appointmentReferenced db id = false := by
  unfold Consistent consistentB at hc
  simp only [Bool.and_eq_true, List.all_eq_true, List.any_eq_true, beq_iff_eq] at hc
  obtain ⟨-, hSale⟩ := hc
  unfold appointmentReferenced
  simp only [List.any_eq_false, beq_iff_eq]
  intro s hs heq
  obtain ⟨-, happ⟩ := hSale s hs
  rw [heq] at happ
  simp only [Option.all, List.any_eq_true, beq_iff_eq] at happ
  obtain ⟨a, ham, haid⟩ := happ
  exact h3 a ham haid

/-- Removing an unreferenced client keeps the state consistent. -/
theorem deleteClient_preserves_consistent (db : Db) (id : String) (db2 : Db)
    (hc : Consistent db) (hok : deleteClient db id = .ok db2) :
    Consistent db2 := by
  unfold deleteClient at hok
  by_cases href : clientReferenced db id = true
  · rw [if_pos href] at hok
    exact absurd hok (by simp)
  · rw [if_neg href] at hok
    cases hok
    rw [Bool.not_eq_true] at href
    unfold clientReferenced at href
    simp only [Bool.or_eq_false_iff, List.any_eq_false, beq_iff_eq] at href
    obtain ⟨hrefA, hrefS⟩ := href
    unfold Consistent consistentB at hc ⊢
    simp only [Bool.and_eq_true, List.all_eq_true, List.any_eq_true, beq_iff_eq] at hc ⊢
    obtain ⟨hApp, hSale⟩ := hc
    constructor
    · intro a ha
      obtain ⟨⟨c, hcm, hcid⟩, hart⟩ := hApp a ha
      refine ⟨⟨c, List.mem_filter.mpr ⟨hcm, ?_⟩, hcid⟩, hart⟩
      simp only [Bool.not_eq_true', beq_eq_false_iff_ne, ne_eq]
      intro hh
      exact hrefA a ha (hcid.symm.trans hh)
    · intro s hs
      obtain ⟨⟨⟨c, hcm, hcid⟩, hart⟩, happ⟩ := hSale s hs
      refine ⟨⟨⟨c, List.mem_filter.mpr ⟨hcm, ?_⟩, hcid⟩, hart⟩, happ⟩
      simp only [Bool.not_eq_true', beq_eq_false_iff_ne, ne_eq]
      intro hh
      exact hrefS s hs (hcid.symm.trans hh)

/-- Removing an unreferenced artist keeps the state consistent. -/
theorem deleteArtist_preserves_consistent (db : Db) (id : String) (db2 : Db)
    (hc : Consistent db) (hok : deleteArtist db id = .ok db2) :
    Consistent db2 := by
  unfold deleteArtist at hok
  by_cases href : artistReferenced db id = true
  · rw [if_pos href] at hok
    exact absurd hok (by simp)
  · rw [if_neg href] at hok
    cases hok
    rw [Bool.not_eq_true] at href
    unfold artistReferenced at href
    simp only [Bool.or_eq_false_iff, List.any_eq_false, beq_iff_eq] at href
    obtain ⟨hrefA, hrefS⟩ := href
    unfold Consistent consistentB at hc ⊢
    simp only [Bool.and_eq_true, List.all_eq_true, List.any_eq_true, beq_iff_eq] at hc ⊢
    obtain ⟨hApp, hSale⟩ := hc
    constructor
    · intro a ha
      obtain ⟨hcl, r, hrm, hrid⟩ := hApp a ha
      refine ⟨hcl, r, List.mem_filter.mpr ⟨hrm, ?_⟩, hrid⟩
      simp only [Bool.not_eq_true', beq_eq_false_iff_ne, ne_eq]
      intro hh
      exact hrefA a ha (hrid.symm.trans hh)
    · intro s hs
      obtain ⟨⟨hcl, r, hrm, hrid⟩, happ⟩ := hSale s hs
      refine ⟨⟨hcl, r, List.mem_filter.mpr ⟨hrm, ?_⟩, hrid⟩, happ⟩
      simp only [Bool.not_eq_true', beq_eq_false_iff_ne, ne_eq]
      intro hh
      exact hrefS s hs (hrid.symm.trans hh)

/-- C9 (confirmed): under the foreign keys the shared schema declares, a
delete of a client or artist still referenced by an appointment or sale
is rejected by the datastore with a foreign-key violation (the state is
unchanged), and whenever a delete does succeed on a referentially
consistent state the resulting state is again consistent: no appointment
or sale is left with an unresolvable clientId or artistId. -/
theorem delete_referenced_rejected_or_consistent (db : Db) (id : String) :
    (clientReferenced db id = true → deleteClient db id = .error .foreignKeyViolation) ∧
    (artistReferenced db id = true → deleteArtist db id = .error .foreignKeyViolation) ∧
    (∀ db2, Consistent db → deleteClient db id = .ok db2 → Consistent db2) ∧
    (∀ db2, Consistent db → deleteArtist db id = .ok db2 → Consistent db2) := by
  refine ⟨?_, ?_, ?_, ?_⟩
  · intro h
    unfold deleteClient
    rw [if_pos h]
  · intro h
    unfold deleteArtist
    rw [if_pos h]
  · exact fun db2 hc hok => deleteClient_preserves_consistent db id db2 hc hok
  · exact fun db2 hc hok => deleteArtist_preserves_consistent db id db2 hc hok

/-- Witness for C9: in dbRef, client c1 and artist r1 are referenced by
an appointment and their deletes are rejected. -/
theorem delete_referenced_rejected_or_consistent_w :
    deleteClient dbRef "c1" = .error .foreignKeyViolation ∧
    deleteArtist dbRef "r1" = .error .foreignKeyViolation :=
  ⟨(delete_referenced_rejected_or_consistent dbRef "c1").1 (by decide),
   (delete_referenced_rejected_or_consistent dbRef "r1").2.1 (by decide)⟩

/-- Deletes with an absent id leave a consistent state unchanged. -/
theorem deletes_of_missing_id (db : Db) (id : String)
    (hc : Consistent db)
    (h1 : ∀ c ∈ db.clients, c.id ≠ id)
    (h2 : ∀ r ∈ db.artists, r.id ≠ id)
    (h3 : ∀ a ∈ db.appointments, a.id ≠ id)
    (h4 : ∀ i ∈ db.inventory, i.id ≠ id)
    (h5 : ∀ s ∈ db.sales, s.id ≠ id) :
    deleteClient db id = .ok db ∧
    deleteArtist db id = .ok db ∧
    deleteAppointment db id = .ok db ∧
    deleteInventoryItem db id = .ok db ∧
    deleteSale db id = .ok db := by
  have e1 := clientReferenced_eq_false_of_missing db id hc h1
  have e2 := artistReferenced_eq_false_of_missing db id hc h2
  have e3 := appointmentReferenced_eq_false_of_missing db id hc h3
  have f1 : db.clients.filter (fun c => !(c.id == id)) = db.clients :=
    List.filter_eq_self.mpr (fun c hcm => by simpa using h1 c hcm)
  have f2 : db.artists.filter (fun r => !(r.id == id)) = db.artists :=
    List.filter_eq_self.mpr (fun r hrm => by simpa using h2 r hrm)
  have f3 : db.appointments.filter (fun a => !(a.id == id)) = db.appointments :=
    List.filter_eq_self.mpr (fun a ham => by simpa using h3 a ham)
  have f4 : db.inventory.filter (fun i => !(i.id == id)) = db.inventory :=
    List.filter_eq_self.mpr (fun i him => by simpa using h4 i him)
  have f5 : db.sales.filter (fun s => !(s.id == id)) = db.sales :=
    List.filter_eq_self.mpr (fun s hsm => by simpa using h5 s hsm)
  refine ⟨?_, ?_, ?_, ?_, ?_⟩
  · unfold deleteClient
    rw [if_neg (by simp [e1]), f1]
  · unfold deleteArtist
    rw [if_neg (by simp [e2]), f2]
  · unfold deleteAppointment
    rw [if_neg (by simp [e3]), f3]
  · unfold deleteInventoryItem
    rw [f4]
  · unfold deleteSale
    rw [f5]

/-- C10 (confirmed): for each of the five entity types, deleting an
identifier that does not occur in a referentially consistent state
succeeds, leaves the state unchanged, and the DELETE route reports 204
No Content: delete is an idempotent silent no-op at the public
interface. -/
theorem delete_missing_id_noop (db : Db) (id : String)
    (hc : Consistent db)
    (h1 : ∀ c ∈ db.clients, c.id ≠ id)
    (h2 : ∀ r ∈ db.artists, r.id ≠ id)
    (h3 : ∀ a ∈ db.appointments, a.id ≠ id)
    (h4 : ∀ i ∈ db.inventory, i.id ≠ id)
    (h5 : ∀ s ∈ db.sales, s.id ≠ id) :
    (deleteClient db id = .ok db ∧
     deleteArtist db id = .ok db ∧
     deleteAppointment db id = .ok db ∧
     deleteInventoryItem db id = .ok db ∧
     deleteSale db id = .ok db) ∧
    (deleteRouteStatus (deleteClient db id) = 204 ∧
     deleteRouteStatus (deleteArtist db id) = 204 ∧
     deleteRouteStatus (deleteAppointment db id) = 204 ∧
     deleteRouteStatus (deleteInventoryItem db id) = 204 ∧
     deleteRouteStatus (deleteSale db id) = 204) := by
  obtain ⟨d1, d2, d3, d4, d5⟩ := deletes_of_missing_id db id hc h1 h2 h3 h4 h5
  refine ⟨⟨d1, d2, d3, d4, d5⟩, ?_, ?_, ?_, ?_, ?_⟩
  · rw [d1]
    rfl
  · rw [d2]
    rfl
  · rw [d3]
    rfl
  · rw [d4]
    rfl
  · rw [d5]
    rfl

/-- Witness for C10: deleting the absent id zzz in dbRef is a no-op with
status 204 for every entity type. -/
theorem delete_missing_id_noop_w :
    (deleteClient dbRef "zzz" = .ok dbRef ∧
     deleteArtist dbRef "zzz" = .ok dbRef ∧
     deleteAppointment dbRef "zzz" = .ok dbRef ∧
     deleteInventoryItem dbRef "zzz" = .ok dbRef ∧
     deleteSale dbRef "zzz" = .ok dbRef) ∧
    (deleteRouteStatus (deleteClient dbRef "zzz") = 204 ∧
     deleteRouteStatus (deleteArtist dbRef "zzz") = 204 ∧
     deleteRouteStatus (deleteAppointment dbRef "zzz") = 204 ∧
     deleteRouteStatus (deleteInventoryItem dbRef "zzz") = 204 ∧
     deleteRouteStatus (deleteSale dbRef "zzz") = 204) :=
  delete_missing_id_noop dbRef "zzz" (by decide) (by decide) (by decide)
    (by decide) (by decide) (by decide)

end InkFlow

